import Mathlib

/-!
Shallow embedding of `chain/network/src/concurrency/scope/mod.rs`: the
structured-concurrency scope primitive (inner scope state, first-error slot,
termination guard, cancel guard, scope/service spawn surface, join handles,
the `must_complete` wrapper and the `internal::run` region entry).

The modules `crate::concurrency::ctx`, `crate::concurrency::signal` and
`near_primitives::time` are collaborators of this file that are not part of
the embedded source; their small surface (one-shot signal, cancellation
context, deadlines, `ctx::wait`) is modelled from the specification and
marked as such in the doc comments.

Asynchronous blocking (`.await` on a signal or a join handle) is modelled by
evaluating the embedded operation on the state that holds once the awaited
event has occurred; theorems carry the corresponding hypothesis (for example
`s.terminated.fired = true`) where the source awaits.
-/

namespace scope

/-- Modelled from the spec: `near_primitives::time::Deadline` (not under the
embedded sources) — an absolute monotonic instant or the distinguished
`Infinite` sentinel. -/
inductive Deadline where
  | infinite
  | finiteAt (t : Nat)

/-- Modelled from the spec: the one-shot signal of `crate::concurrency::signal`
(not under the embedded sources). A latching notification: `send` sets it,
it never un-fires, `try_recv` is a non-suspending probe; `recv()` completes
exactly when `fired = true`. -/
structure Signal where
  fired : Bool

/-- A fresh, unfired signal. -/
def Signal.new : Signal := { fired := false }

/-- `send()`: idempotent latch. -/
def Signal.send (_s : Signal) : Signal := { fired := true }

/-- `try_recv()`: non-suspending boolean probe. -/
def Signal.try_recv (s : Signal) : Bool := s.fired

/-- Modelled from the spec: the cancellation context of
`crate::concurrency::ctx` (not under the embedded sources). A node in a
cancellation tree: each node records the parent it was derived from, the
deadline it was derived with, and its own cancel flag. -/
inductive Ctx where
  | root (cancelFlag : Bool)
  | child (parent : Ctx) (deadline : Deadline) (cancelFlag : Bool)

/-- `ctx.sub(deadline)`: derive a child context (its own flag starts clear). -/
def Ctx.sub (c : Ctx) (d : Deadline) : Ctx := .child c d false

/-- `ctx.cancel()`: set this node's cancel flag (idempotent). -/
def Ctx.cancel : Ctx → Ctx
  | .root _ => .root true
  | .child p d _ => .child p d true

/-- `ctx.is_cancelled()`: a context is cancelled when its own flag or any
ancestor's flag is set. -/
def Ctx.is_cancelled : Ctx → Bool
  | .root f => f
  | .child p _ f => f || p.is_cancelled

/-- The context this node was derived from, if any. -/
def Ctx.parentOf : Ctx → Option Ctx
  | .root _ => none
  | .child p _ _ => some p

/-- The deadline this node was derived with, if any. -/
def Ctx.deadlineOf : Ctx → Option Deadline
  | .root _ => none
  | .child _ d _ => some d

/-- Marker returned from `join()` when the joined task was cancelled
(source: `pub struct ErrTaskCanceled`). -/
inductive ErrTaskCanceled where
  | mk

/-- Marker returned from service `spawn` / `new_service` when the sub-region
already terminated (source: `pub struct ErrTerminated`). -/
inductive ErrTerminated where
  | mk

/-- Modelled from the spec: the `Cancelled` marker of
`crate::concurrency::ctx` (`ctx::ErrCanceled`, not under the embedded
sources), returned from `ctx::wait` when the caller's context is cancelled. -/
inductive ErrCanceled where
  | mk

/-- Modelled from the spec: `ctx::wait(f)` (not under the embedded sources).
Runs a future until it completes or the ambient context is cancelled; the
boolean records whether the ambient context was cancelled before `f`
completed, in which case the distinguished `Cancelled` marker is returned. -/
def ctxWait {α : Type} (callerCancelledFirst : Bool) (v : α) : Except ErrCanceled α :=
  if callerCancelledFirst then .error .mk else .ok v

/-- Embeds `struct Inner<E>`: the shared state of a region — its context
(a child of the parent scope's context), the first-error slot (the
`watch::Sender<Option<E>>` channel's stored value) and the `terminated`
signal. -/
structure Inner (E : Type) where
  ctx : Ctx
  err : Option E
  terminated : Signal

/-- Embeds `Inner::new(ctx)`: a fresh inner state whose context is
`ctx.sub(time::Deadline::Infinite)`, with an empty error slot and an
unfired termination signal. -/
def Inner.new {E : Type} (parent : Ctx) : Inner E :=
  { ctx := parent.sub .infinite, err := none, terminated := Signal.new }

/-- Embeds `Inner::register(err)` (state effect). The `send_if_modified`
closure leaves the slot untouched and yields `false` when it already holds a
value, and otherwise stores `err` and yields `true`; `ctx.cancel()` runs
exactly when the closure yielded `true`. The Rust function's return type is
`()`. -/
def Inner.register {E : Type} (s : Inner E) (e : E) : Inner E :=
  match s.err with
  | some _ => s
  | none => { s with err := some e, ctx := s.ctx.cancel }

/-- The boolean yielded by `register`'s `send_if_modified` closure: whether
the insertion won (the slot was empty). The source consumes it internally to
decide `ctx.cancel()` and does not return it. -/
def Inner.insertionWon {E : Type} (s : Inner E) : Bool := !s.err.isSome

/-- The full call shape of `Inner::register`: the updated state together
with the value the Rust function returns to its caller, which is `()`. -/
def Inner.registerCall {E : Type} (s : Inner E) (e : E) : Inner E × Unit :=
  (s.register e, ())

/-- A sequence of `register` calls, in order. -/
def Inner.registerAll {E : Type} (s : Inner E) (es : List E) : Inner E :=
  es.foldl Inner.register s

/-- Embeds `Inner::terminated_take` evaluated once the `terminated` signal
has fired (the function first awaits `self.terminated.recv()`): the result
of swapping the first-error slot with `None` — `Err` of the moved value when
the slot is populated, `Ok(())` when it is empty — paired with the state
left behind (slot emptied). The source line wraps the `match` in one more
`Ok(..)` constructor, which does not typecheck against the declared
signature `Result<(), E>`; the embedding follows the declared signature. -/
def Inner.terminated_take {E : Type} (s : Inner E) : Except E Unit × Inner E :=
  (match s.err with
   | some e => Except.error e
   | none => Except.ok (),
   { s with err := none })

/-- Embeds `Inner::terminated` (the `E: Clone` variant) evaluated once the
`terminated` signal has fired: `Err` of a clone of the first-error slot's
value when populated, `Ok(())` when empty; the slot is left untouched.
Named `terminatedRecv` because `Inner.terminated` is the field projection.
The same stray `Ok(..)` wrapper as in `terminated_take` is dropped. -/
def Inner.terminatedRecv {E : Type} (s : Inner E) : Except E Unit :=
  match s.err with
  | some e => Except.error e
  | none => Except.ok ()

/-- Embeds `struct TerminateGuard<E>(Arc<Inner<E>>)`: a wrapper around the
inner state whose destruction fires `terminated`. -/
structure TerminateGuard (E : Type) where
  toInner : Inner E

/-- Embeds `impl Drop for TerminateGuard`: `self.0.terminated.send()`. -/
def TerminateGuard.dropped {E : Type} (g : TerminateGuard E) : Inner E :=
  { g.toInner with terminated := g.toInner.terminated.send }

/-- Embeds `struct CancelGuard<E>(Arc<TerminateGuard<E>>)`: a wrapper around
the termination guard whose destruction cancels the region's context. -/
structure CancelGuard (E : Type) where
  toGuard : TerminateGuard E

/-- Embeds `impl Drop for CancelGuard`: `self.0.0.ctx.cancel()`. -/
def CancelGuard.dropped {E : Type} (g : CancelGuard E) : Inner E :=
  { g.toGuard.toInner with ctx := g.toGuard.toInner.ctx.cancel }

/-- A reference to one of the two guard wrappers, as held by a spawned task
or downgraded into a handle. Distinguishes which wrapper an `Arc` points
to. -/
inductive AnyGuard (E : Type) where
  | terminate (g : TerminateGuard E)
  | cancel (g : CancelGuard E)

/-- Whether a guard reference points to the cancel guard (the wrapper whose
drop cancels the context), as opposed to the termination guard (the wrapper
whose drop fires `terminated`). -/
def AnyGuard.isCancelGuard {E : Type} : AnyGuard E → Bool
  | .terminate _ => false
  | .cancel _ => true

/-- What a task spawned by `TerminateGuard::spawn` awaits inside its
`must_complete`/`CtxFuture` wrapping. -/
inductive TaskAwaits (E : Type) where
  | userFuture
  | ctxCancelled (c : Ctx)
  | terminatedSignal (region : Inner E)

/-- Description of a task spawned by `TerminateGuard::spawn(m, f)`: the
region (inner state) whose context wraps the future, the guard reference
`m` the task owns for its whole run, and what the future awaits. -/
structure SpawnedTask (E : Type) where
  region : Inner E
  heldGuard : AnyGuard E
  awaits : TaskAwaits E

/-- Embeds the body of the future spawned by `TerminateGuard::spawn`: when
the user's future resolves with `res` while the region's shared state is
`region`, the task resolves `Ok(v)` on success, and on error registers the
error and resolves `Err` of (a clone of the `Arc` of) the updated inner
state; paired with that updated shared state. -/
def TerminateGuard.spawnBody {E T : Type} (region : Inner E) (res : Except E T) :
    Except (Inner E) T × Inner E :=
  match res with
  | .ok v => (.ok v, region)
  | .error e => (.error (region.register e), region.register e)

/-- Embeds `JoinHandle<'env, T, E>` at the point where the underlying
executor handle has resolved: `resolved` is the value of
`self.0.await.unwrap()` — `Ok v` when the task's future returned `Ok(v)`,
`Err inner` when it returned an error that was registered into `inner`. -/
structure JoinHandle (T E : Type) where
  resolved : Except (Inner E) T

/-- Embeds `JoinHandle::join_raw`: `self.0.await.unwrap().map_err(|_| ErrTaskCanceled)`. -/
def JoinHandle.join_raw {T E : Type} (h : JoinHandle T E) : Except ErrTaskCanceled T :=
  match h.resolved with
  | .ok v => .ok v
  | .error _ => .error .mk

/-- Embeds `JoinHandle::join`. `cancelledBeforeTaskFinish` is whether the
caller's ambient context cancelled before the joined task resolved (first
`ctx::wait`); `cancelledBeforeRegionTermination` is whether it cancelled
while awaiting the task's region termination signal (second `ctx::wait`,
reached only when the task resolved to a registered error). -/
def JoinHandle.join {T E : Type} (h : JoinHandle T E)
    (cancelledBeforeTaskFinish cancelledBeforeRegionTermination : Bool) :
    Except ErrCanceled (Except ErrTaskCanceled T) :=
  match ctxWait cancelledBeforeTaskFinish h.resolved with
  | .error c => .error c
  | .ok (.ok res) => .ok (.ok res)
  | .ok (.error _inner) =>
    match ctxWait cancelledBeforeRegionTermination () with
    | .error c => .error c
    | .ok _ => .ok (.error .mk)

/-- Embeds `struct Service<E>(Weak<TerminateGuard<E>>, Arc<Inner<E>>)`:
the handle of a sub-region. `weakGuard` is the result of upgrading the weak
reference at the moment of the call (`some` while the sub-region still has
live tasks holding the guard, `none` once it terminated). -/
structure Service (E : Type) where
  weakGuard : Option (TerminateGuard E)
  inner : Inner E

/-- Embeds `impl Drop for Service`: `self.1.ctx.cancel()` — cancellation of
the sub-region's context through the strong inner-state reference. -/
def Service.dropped {E : Type} (s : Service E) : Service E :=
  { s with inner := { s.inner with ctx := s.inner.ctx.cancel } }

/-- Embeds `Service::is_terminated`: `self.1.terminated.try_recv()`. -/
def Service.is_terminated {E : Type} (s : Service E) : Bool :=
  s.inner.terminated.try_recv

/-- The wiring produced by `TerminateGuard::new_service`: the returned
handle, the object that was downgraded into the handle's weak slot, the
guard task spawned on the sub-region, and the watcher task spawned on the
parent region. The source instantiates the sub-region's error type `E2`
independently; the embedding instantiates it to the same type. -/
structure NewServiceOutcome (E : Type) where
  service : Service E
  downgraded : AnyGuard E
  guardTask : SpawnedTask E
  watcherTask : SpawnedTask E

/-- Embeds `TerminateGuard::new_service`: allocates
`sub = Arc::new(TerminateGuard(Inner::new(&self.0.ctx)))`, builds the handle
`Service(Arc::downgrade(&sub), sub.0.clone())`, spawns on the sub-region a
guard task `Ok(ctx::canceled().await)` (whose ambient context is the
sub-region's context) and on the parent region a watcher task awaiting
`sub.0.terminated`. -/
def TerminateGuard.new_service {E : Type} (parent : TerminateGuard E) :
    NewServiceOutcome E :=
  let subInner : Inner E := Inner.new parent.toInner.ctx
  let sub : TerminateGuard E := { toInner := subInner }
  { service := { weakGuard := some sub, inner := subInner }
    downgraded := .terminate sub
    guardTask := { region := subInner, heldGuard := .terminate sub
                   awaits := .ctxCancelled subInner.ctx }
    watcherTask := { region := parent.toInner, heldGuard := .terminate parent
                     awaits := .terminatedSignal subInner } }

/-- Embeds `Service::spawn`: upgrade the weak guard reference; on success
spawn a task on the sub-region holding the upgraded guard and return its
join handle, otherwise report `ErrTerminated`. -/
def Service.spawn {E : Type} (s : Service E) : Except ErrTerminated (SpawnedTask E) :=
  match s.weakGuard with
  | some m => .ok { region := m.toInner, heldGuard := .terminate m, awaits := .userFuture }
  | none => .error .mk

/-- Embeds `Service::new_service`:
`self.0.upgrade().map(|m| m.new_service()).ok_or(ErrTerminated)`. -/
def Service.new_service {E : Type} (s : Service E) :
    Except ErrTerminated (NewServiceOutcome E) :=
  match s.weakGuard with
  | some m => .ok m.new_service
  | none => .error .mk

/-- Embeds `struct Scope<'env, E>`: the two weak references stored by
`internal::run` — to the cancel guard and to the termination guard — each
given as its upgrade result at the moment of the call. -/
structure Scope (E : Type) where
  weakCancel : Option (CancelGuard E)
  weakTerminate : Option (TerminateGuard E)

/-- Result of a `Scope` spawn call: either a task was spawned and a join
handle returned for it, or the call panicked (`.unwrap()` on a weak
reference that failed to upgrade). -/
inductive SpawnResult (E : Type) where
  | handleReturned (task : SpawnedTask E)
  | panicked

/-- Embeds `Scope::spawn_bg`: spawn on `self.1.upgrade().unwrap()` — the
spawned task holds the termination guard; a failed upgrade panics. -/
def Scope.spawn_bg {E : Type} (s : Scope E) : SpawnResult E :=
  match s.weakTerminate with
  | some g =>
    .handleReturned { region := g.toInner, heldGuard := .terminate g, awaits := .userFuture }
  | none => .panicked

/-- Embeds `Scope::spawn`: upgrade `self.0`; on success the spawned task
holds the cancel guard and a join handle is returned; on failure fall back
to `self.spawn_bg(f)`. -/
def Scope.spawn {E : Type} (s : Scope E) : SpawnResult E :=
  match s.weakCancel with
  | some g =>
    .handleReturned { region := g.toGuard.toInner, heldGuard := .cancel g, awaits := .userFuture }
  | none => s.spawn_bg

/-- Result of `Scope::new_service`: the service wiring, or a panic from
`.unwrap()` on a failed weak upgrade. -/
inductive NewServiceResult (E : Type) where
  | made (outcome : NewServiceOutcome E)
  | panicked

/-- Embeds `Scope::new_service`:
`TerminateGuard::new_service(self.0.upgrade().unwrap().0.clone())` — the
cancel-guard weak reference is upgraded and unwrapped (panicking on
failure) and its termination guard becomes the parent of the new service. -/
def Scope.new_service {E : Type} (s : Scope E) : NewServiceResult E :=
  match s.weakCancel with
  | some g => .made g.toGuard.new_service
  | none => .panicked

/-- The diagnostic emitted by `impl Drop for MustCompleteGuard`: the fixed
message plus a backtrace obtained with `Backtrace::force_capture()`. -/
structure Diagnostic where
  message : String
  backtraceCaptured : Bool

/-- How a future wrapped by `must_complete` is driven: either it resolves
with an outcome, or the wrapper is dropped before resolution. -/
inductive FutExec (T : Type) where
  | completed (out : T)
  | dropped

/-- Outcome of `must_complete`: the wrapped future's own outcome, or a
process abort (`std::process::abort()`) carrying the guard's diagnostic. -/
inductive MustCompleteResult (T : Type) where
  | completed (out : T)
  | processAborted (d : Diagnostic)

/-- The diagnostic of `MustCompleteGuard::drop`: it prints
"dropped a non-abortable future before completion" and a force-captured
backtrace, then aborts the process. -/
def mustCompleteGuardDiag : Diagnostic :=
  { message := "dropped a non-abortable future before completion", backtraceCaptured := true }

/-- Embeds `must_complete(fut)`: if `fut` resolves, the guard is disarmed
via `ManuallyDrop` and the wrapper resolves with the same outcome; if the
wrapper is dropped first, `MustCompleteGuard::drop` runs and aborts the
process with its diagnostic. -/
def must_complete {T : Type} : FutExec T → MustCompleteResult T
  | .completed out => .completed out
  | .dropped => .processAborted mustCompleteGuardDiag

/-- Embeds the tail of `internal::run`, evaluated after the termination
signal has fired: `inner.terminated_take().await?` returns the first-error
slot's value as the error when populated; otherwise the root task's
join-raw result is returned in the success position
(`Ok(task.join_raw().await)`). -/
def internal.run {E T : Type} (finalInner : Inner E) (rootTask : JoinHandle T E) :
    Except E (Except ErrTaskCanceled T) :=
  match finalInner.terminated_take.1 with
  | .error e => .error e
  | .ok _ => .ok rootTask.join_raw

/-- A concrete terminated inner state with a populated first-error slot and a
cancelled context, used to instantiate theorems. -/
def innerErrEx : Inner Nat :=
  { ctx := Ctx.cancel (Ctx.sub (Ctx.root false) Deadline.infinite)
    err := some 5
    terminated := { fired := true } }

/-- A concrete terminated inner state with an empty first-error slot. -/
def innerOkEx : Inner Nat :=
  { ctx := Ctx.sub (Ctx.root false) Deadline.infinite
    err := none
    terminated := { fired := true } }

/-- A fresh inner state (empty slot, live context, unfired signal). -/
def innerEmptyEx : Inner Nat := Inner.new (Ctx.root false)

/-- A concrete inner state whose first-error slot is already populated. -/
def innerFullEx : Inner Nat := innerEmptyEx.register 3

/-- A concrete termination guard. -/
def tgEx : TerminateGuard Nat := { toInner := innerOkEx }

/-- A concrete cancel guard. -/
def cgEx : CancelGuard Nat := { toGuard := tgEx }

/-- A concrete live service handle (weak guard upgrade succeeds). -/
def svcLiveEx : Service Nat := { weakGuard := some tgEx, inner := tgEx.toInner }

/-- A concrete terminated service handle (weak guard upgrade fails). -/
def svcDeadEx : Service Nat := { weakGuard := none, inner := innerOkEx }

/-- Cancelling a context makes it cancelled. -/
theorem Ctx.is_cancelled_cancel (c : Ctx) : c.cancel.is_cancelled = true := by
  cases c <;> simp [Ctx.cancel, Ctx.is_cancelled]

/-- A `register` call on a populated first-error slot leaves the state
entirely unchanged. -/
theorem Inner.register_populated {E : Type} {s : Inner E} (h : s.err.isSome = true) (e : E) :
    s.register e = s := by
  cases hs : s.err with
  | some x => simp [Inner.register, hs]
  | none => rw [hs] at h; simp at h

/-- Any sequence of `register` calls on a populated first-error slot leaves
the state entirely unchanged. -/
theorem Inner.registerAll_populated {E : Type} (es : List E) (s : Inner E)
    (h : s.err.isSome = true) : s.registerAll es = s := by
  induction es generalizing s with
  | nil => rfl
  | cons x xs ih =>
    have hx := Inner.register_populated h x
    simp only [Inner.registerAll, List.foldl] at *
    rw [hx, ih s h]

/-- C1: for a region entered via `run`, once the termination signal has
fired, `internal::run` returns the first-error slot's value as an error when
the slot is populated, and otherwise returns the root task's success
value. -/
theorem C1_run_first_error_or_root_success {E T : Type}
    (finalInner : Inner E) (rootTask : JoinHandle T E)
    (_hterm : finalInner.terminated.fired = true) :
    (∀ e, finalInner.err = some e → internal.run finalInner rootTask = .error e) ∧
    (∀ v, finalInner.err = none → rootTask.resolved = .ok v →
      internal.run finalInner rootTask = .ok (.ok v)) := by
  constructor
  · intro e he
    simp [internal.run, Inner.terminated_take, he]
  · intro v hn hv
    simp [internal.run, Inner.terminated_take, hn, JoinHandle.join_raw, hv]

/-- C1 witness: `internal::run` evaluated on a terminated region with error
slot `5`, and on a terminated region with an empty slot whose root task
resolved `42`. -/
theorem C1_run_witness :
    internal.run innerErrEx ({ resolved := Except.error innerErrEx } : JoinHandle Nat Nat)
        = .error 5 ∧
    internal.run innerOkEx ({ resolved := Except.ok 42 } : JoinHandle Nat Nat)
        = .ok (.ok 42) :=
  ⟨(C1_run_first_error_or_root_success innerErrEx { resolved := Except.error innerErrEx }
      rfl).1 5 rfl,
   (C1_run_first_error_or_root_success innerOkEx { resolved := Except.ok 42 }
      rfl).2 42 rfl rfl⟩

/-- C2 (amended): for every inner state and sequence of `register` calls,
exactly the first call on an empty first-error slot stores its error and
cancels the context, and every subsequent call leaves the state entirely
unchanged (silently discarded); `register`'s Rust return type is `()`, so
the insertion outcome is used only internally to decide cancellation and is
not returned to the caller. -/
theorem C2_register_first_wins {E : Type} (s : Inner E) (e : E) (es : List E) :
    (s.err = none →
      (s.register e).err = some e ∧
      (s.register e).ctx.is_cancelled = true ∧
      (s.register e).registerAll es = s.register e) ∧
    (s.err.isSome = true → s.registerAll (e :: es) = s) := by
  constructor
  · intro hnone
    have h1 : (s.register e).err = some e := by simp [Inner.register, hnone]
    refine ⟨h1, ?_, ?_⟩
    · simp [Inner.register, hnone, Ctx.is_cancelled_cancel]
    · exact Inner.registerAll_populated es _ (by simp [h1])
  · intro h
    exact Inner.registerAll_populated (e :: es) s h

/-- C2 witness: the first `register` on a fresh inner state stores `7` and
cancels the context, two further calls change nothing, and a sequence of
calls on an already-populated state changes nothing. -/
theorem C2_register_first_wins_witness :
    (innerEmptyEx.register 7).err = some 7 ∧
    (innerEmptyEx.register 7).ctx.is_cancelled = true ∧
    (innerEmptyEx.register 7).registerAll [8, 9] = innerEmptyEx.register 7 ∧
    innerFullEx.registerAll [7, 8] = innerFullEx := by
  have h := C2_register_first_wins innerEmptyEx 7 [8, 9]
  have h2 := C2_register_first_wins innerFullEx 7 [8]
  exact ⟨(h.1 rfl).1, (h.1 rfl).2.1, (h.1 rfl).2.2, h2.2 rfl⟩

/-- C2 counterexample: `register` does not return whether the insertion won.
Its Rust return type is `()`: the call on `innerEmptyEx` wins the insertion
(slot empty, `7` stored) and the call on `innerFullEx` loses it (slot keeps
`3`), yet the two calls return identical values, so the return cannot report
who won. -/
theorem C2_counterexample :
    Inner.insertionWon innerEmptyEx = true ∧
    Inner.insertionWon innerFullEx = false ∧
    (Inner.registerCall innerEmptyEx 7).1.err = some 7 ∧
    (Inner.registerCall innerFullEx 7).1.err = some 3 ∧
    (Inner.registerCall innerEmptyEx 7).2 = (Inner.registerCall innerFullEx 7).2 :=
  ⟨rfl, rfl, rfl, rfl, rfl⟩

/-- C3: a future wrapped by `must_complete` completes with the wrapped
future's own outcome when the future resolves (the abort guard is
disarmed), and dropping the wrapper before completion aborts the process
with a diagnostic that includes a captured backtrace. -/
theorem C3_must_complete_semantics {T : Type} (out : T) :
    must_complete (FutExec.completed out) = .completed out ∧
    must_complete (FutExec.dropped : FutExec T) = .processAborted mustCompleteGuardDiag ∧
    mustCompleteGuardDiag.backtraceCaptured = true :=
  ⟨rfl, rfl, rfl⟩

/-- C4: when the cancel-guard weak reference fails to upgrade (all main
tasks have completed), `Scope::spawn` behaves exactly like
`Scope::spawn_bg`; when it upgrades, `spawn` spawns a main task holding the
cancel guard and returns a join handle for it. -/
theorem C4_spawn_degrades_to_spawn_bg {E : Type} (s : Scope E) :
    (s.weakCancel = none → s.spawn = s.spawn_bg) ∧
    (∀ g, s.weakCancel = some g →
      s.spawn = .handleReturned
        { region := g.toGuard.toInner, heldGuard := .cancel g, awaits := .userFuture }) := by
  constructor
  · intro h; simp [Scope.spawn, h]
  · intro g h; simp [Scope.spawn, h]

/-- C4 witness: a scope whose cancel-guard upgrade fails degrades `spawn` to
`spawn_bg`; a live scope spawns a cancel-guard-holding task with a join
handle. -/
theorem C4_spawn_degrades_witness :
    (Scope.spawn { weakCancel := none, weakTerminate := some tgEx } : SpawnResult Nat)
      = Scope.spawn_bg { weakCancel := none, weakTerminate := some tgEx } ∧
    Scope.spawn { weakCancel := some cgEx, weakTerminate := some tgEx }
      = .handleReturned
          { region := cgEx.toGuard.toInner, heldGuard := .cancel cgEx, awaits := .userFuture } :=
  ⟨(C4_spawn_degrades_to_spawn_bg _).1 rfl,
   (C4_spawn_degrades_to_spawn_bg _).2 cgEx rfl⟩

/-- C5: `Service::spawn` and `Service::new_service` return `ErrTerminated`
exactly when the weak guard reference fails to upgrade; otherwise `spawn`
spawns a guard-holding task on the sub-region and returns its join handle,
and `new_service` returns a nested service built on the upgraded guard's
inner state. -/
theorem C5_service_spawn_terminated_iff {E : Type} (s : Service E) :
    (s.spawn = .error .mk ↔ s.weakGuard = none) ∧
    (s.new_service = .error .mk ↔ s.weakGuard = none) ∧
    (∀ m, s.weakGuard = some m →
      s.spawn = .ok { region := m.toInner, heldGuard := .terminate m, awaits := .userFuture } ∧
      s.new_service = .ok m.new_service ∧
      (m.new_service).service.inner = Inner.new m.toInner.ctx) := by
  refine ⟨?_, ?_, ?_⟩
  · cases h : s.weakGuard <;> simp [Service.spawn, h]
  · cases h : s.weakGuard <;> simp [Service.new_service, h]
  · intro m h
    refine ⟨?_, ?_, rfl⟩ <;> simp [Service.spawn, Service.new_service, h]

/-- C5 witness: a terminated handle reports `ErrTerminated` from both
operations; a live handle spawns and nests. -/
theorem C5_service_spawn_witness :
    svcDeadEx.spawn = .error .mk ∧
    svcLiveEx.spawn
      = .ok { region := tgEx.toInner, heldGuard := .terminate tgEx, awaits := .userFuture } ∧
    svcDeadEx.new_service = .error .mk ∧
    svcLiveEx.new_service = .ok tgEx.new_service := by
  have hd := C5_service_spawn_terminated_iff svcDeadEx
  have hl := C5_service_spawn_terminated_iff svcLiveEx
  exact ⟨hd.1.mpr rfl, (hl.2.2 tgEx rfl).1, hd.2.1.mpr rfl, (hl.2.2 tgEx rfl).2.1⟩

/-- C6: dropping a service handle cancels the sub-region's context through
the strong inner-state reference, and both the drop effect and the
`is_terminated` probe read only the inner state, so termination stays
observable for any value of the weak guard slot. -/
theorem C6_service_drop_cancels {E : Type} (s : Service E) (w : Option (TerminateGuard E)) :
    s.dropped.inner.ctx.is_cancelled = true ∧
    Service.is_terminated { weakGuard := w, inner := s.inner } = s.inner.terminated.fired ∧
    ({ s with weakGuard := w } : Service E).dropped.inner = s.dropped.inner := by
  refine ⟨?_, rfl, rfl⟩
  simp [Service.dropped, Ctx.is_cancelled_cancel]

/-- C7: `join` returns the task's success value when the joined task
resolved successfully; returns the `ErrTaskCanceled` marker when the joined
task was cancelled (it resolved to the registered-error branch); and
returns the caller-cancelled marker instead whenever the caller's ambient
context is cancelled before the task finishes. -/
theorem C7_join_semantics {T E : Type} (v : T) (inner : Inner E)
    (h : JoinHandle T E) (c2 : Bool) :
    ({ resolved := Except.ok v } : JoinHandle T E).join false false = .ok (.ok v) ∧
    ({ resolved := Except.error inner } : JoinHandle T E).join false false
      = .ok (.error .mk) ∧
    h.join true c2 = .error .mk := by
  refine ⟨rfl, rfl, ?_⟩
  simp [JoinHandle.join, ctxWait]

/-- C8: once the terminated signal has fired, `terminated` (the cloning
variant) and `terminated_take` (the moving variant) return `Err` of the
first-error slot's value when the slot is populated and `Ok(())` when it is
empty; the take variant additionally leaves the slot emptied. -/
theorem C8_terminated_returns_slot {E : Type} (s : Inner E)
    (_hterm : s.terminated.fired = true) :
    (∀ e, s.err = some e →
      s.terminatedRecv = .error e ∧
      s.terminated_take = (.error e, { s with err := none })) ∧
    (s.err = none →
      s.terminatedRecv = .ok () ∧
      s.terminated_take = (.ok (), { s with err := none })) := by
  constructor
  · intro e he
    exact ⟨by simp [Inner.terminatedRecv, he], by simp [Inner.terminated_take, he]⟩
  · intro hn
    exact ⟨by simp [Inner.terminatedRecv, hn], by simp [Inner.terminated_take, hn]⟩

/-- C8 witness: the two variants evaluated on a terminated state with error
slot `5` and on a terminated state with an empty slot. -/
theorem C8_terminated_witness :
    innerErrEx.terminatedRecv = .error 5 ∧
    innerOkEx.terminatedRecv = .ok () ∧
    innerErrEx.terminated_take = (.error 5, { innerErrEx with err := none }) := by
  have h1 := C8_terminated_returns_slot innerErrEx rfl
  have h2 := C8_terminated_returns_slot innerOkEx rfl
  exact ⟨(h1.1 5 rfl).1, (h2.2 rfl).1, (h1.1 5 rfl).2⟩

/-- C9 (amended): `new_service` allocates a new inner state whose context is
an `Infinite`-deadline child of the parent region's context, spawns on the
sub-region a guard task that holds the sub-region's termination guard and
awaits cancellation of the sub-region's context, spawns on the parent
region a watcher task that awaits the sub-region's terminated signal, and
returns a handle made of a weak reference to the sub-region's termination
guard (no cancel guard is allocated) and a strong reference to the
sub-region's inner state. -/
theorem C9_new_service_wiring {E : Type} (parent : TerminateGuard E) :
    (parent.new_service).service.inner = Inner.new parent.toInner.ctx ∧
    (parent.new_service).service.inner.ctx.parentOf = some parent.toInner.ctx ∧
    (parent.new_service).service.inner.ctx.deadlineOf = some .infinite ∧
    (parent.new_service).guardTask.region = (parent.new_service).service.inner ∧
    (parent.new_service).guardTask.awaits
      = .ctxCancelled (parent.new_service).service.inner.ctx ∧
    (parent.new_service).watcherTask.region = parent.toInner ∧
    (parent.new_service).watcherTask.awaits
      = .terminatedSignal (parent.new_service).service.inner ∧
    (parent.new_service).downgraded
      = .terminate { toInner := (parent.new_service).service.inner } ∧
    (parent.new_service).service.weakGuard
      = some { toInner := (parent.new_service).service.inner } :=
  ⟨rfl, rfl, rfl, rfl, rfl, rfl, rfl, rfl, rfl⟩

/-- C9 counterexample: at a concrete parent region, the object `new_service`
downgrades into the handle's weak slot is the termination guard, not a
cancel guard, so the handle is not made of a weak reference to the cancel
guard. -/
theorem C9_counterexample :
    (tgEx.new_service).downgraded.isCancelGuard = false ∧
    (tgEx.new_service).downgraded
      = .terminate { toInner := Inner.new tgEx.toInner.ctx } :=
  ⟨rfl, rfl⟩

/-- C10: `Scope::spawn_bg` panics (unwrap of a failed weak upgrade) when the
termination-guard weak reference cannot be upgraded, and `Scope::new_service`
likewise panics when the cancel-guard weak reference fails to upgrade —
unlike `Service::spawn`, which reports `ErrTerminated`. -/
theorem C10_scope_unwrap_panics {E : Type} (s : Scope E) (svc : Service E) :
    (s.weakTerminate = none → s.spawn_bg = .panicked) ∧
    (s.weakCancel = none → s.new_service = .panicked) ∧
    (svc.weakGuard = none → svc.spawn = .error .mk) := by
  refine ⟨?_, ?_, ?_⟩
  · intro h; simp [Scope.spawn_bg, h]
  · intro h; simp [Scope.new_service, h]
  · intro h; simp [Service.spawn, h]

/-- C10 witness: the unwrap panics on a dead scope, and the contrasting
`ErrTerminated` return of a dead service handle. -/
theorem C10_scope_unwrap_panics_witness :
    (Scope.spawn_bg { weakCancel := none, weakTerminate := none } : SpawnResult Nat)
      = .panicked ∧
    Scope.new_service ({ weakCancel := none, weakTerminate := none } : Scope Nat)
      = .panicked ∧
    svcDeadEx.spawn = .error .mk := by
  have h := C10_scope_unwrap_panics
    ({ weakCancel := none, weakTerminate := none } : Scope Nat) svcDeadEx
  exact ⟨h.1 rfl, h.2.1 rfl, h.2.2 rfl⟩

end scope
